import Mathlib

/-!
Shallow embedding of the registration / submission core of the APP repository:
`backend/app/services/registration_service.py`, `backend/app/services/data_service.py`
and `backend/app/crud.py`.

Modelling conventions:
* timestamps are whole minutes as `Int` (`timedelta(hours = h)` becomes `60 * h`,
  `timedelta(minutes = m)` becomes `m`);
* the relational store is an in-memory record of lists, one list per table, and the
  CRUD helpers of `crud.py` are functions on that record;
* the external collaborators (random sampler, blob store, code host) are explicit
  oracle parameters, so the orchestration logic stays a pure function;
* Python exceptions (`HTTPException`, `ValueError`, `IndexError`) become an
  `Except RegError` result with one constructor per distinct raise site.
-/

namespace APP

deriving instance DecidableEq for Except

/-- A TP (exercise period) row, `app.sqlalchemy_models.Tps`; times in minutes. -/
structure Tps where
  tp_id : Int
  start_time : Int
  end_time : Int
  grace_minutes : Int
  max_access_hours : Int
  deriving DecidableEq

/-- A user row, `app.sqlalchemy_models.User` (the fields the core reads). -/
structure User where
  id : Nat
  student_id : String
  full_name : String
  email : Option String
  has_submitted : Bool
  deriving DecidableEq

/-- An `AssignedClass` row: the three persisted class names for one (tp, user). -/
structure AssignedClass where
  tp_id : Int
  user_id : Nat
  class_1 : String
  class_2 : String
  class_3 : String
  deriving DecidableEq

/-- A `File` row (`app.sqlalchemy_models.File`). -/
structure FileRec where
  user_id : Nat
  tp_id : Option Int
  drive_file_id : String
  file_type : String
  path : String
  original_filename : Option String
  stored_filename : Option String
  size_bytes : Option Nat
  deriving DecidableEq

/-- A `HiddenTestId` row. -/
structure HiddenTestRow where
  tp_id : Int
  user_id : Nat
  text_id : Nat
  ground_truth : Int
  deriving DecidableEq

/-- An `ActivityLog` row. -/
structure ActivityRow where
  user_id : Option Nat
  action_key : String
  details : String
  deriving DecidableEq

/-- The relational state touched by the core (one list per table). -/
structure Db where
  tps : List Tps
  users : List User
  assigned : List AssignedClass
  files : List FileRec
  hidden : List HiddenTestRow
  logs : List ActivityRow
  next_user_id : Nat
  deriving DecidableEq

/-- `CRUD.get_user_by_student_id`: first user whose `student_id` matches. -/
def get_user_by_student_id (db : Db) (student_id : String) : Option User :=
  db.users.find? (fun u => u.student_id == student_id)

/-- `CRUD.get_tp_by_id`. -/
def get_tp_by_id (db : Db) (tp_id : Int) : Option Tps :=
  db.tps.find? (fun t => t.tp_id == tp_id)

/-- `CRUD.get_assigned_classes` for a (tp, user) pair. -/
def get_assigned_classes (db : Db) (tp_id : Int) (user_id : Nat) : Option AssignedClass :=
  db.assigned.find? (fun a => a.tp_id == tp_id && a.user_id == user_id)

/-- `CRUD.get_dataset_file_for_user_tp`: the `"dataset_zip"` file record of a pair. -/
def get_dataset_file_for_user_tp (db : Db) (user_id : Nat) (tp_id : Int) : Option FileRec :=
  db.files.find? (fun f =>
    f.user_id == user_id && f.tp_id == some tp_id && f.file_type == "dataset_zip")

/-- `CRUD.create_user`: fresh id, `has_submitted` initially false. -/
def create_user (db : Db) (student_id full_name : String) (email : Option String) :
    User × Db :=
  let u : User :=
    { id := db.next_user_id, student_id := student_id, full_name := full_name
      email := email, has_submitted := false }
  (u, { db with users := db.users ++ [u], next_user_id := db.next_user_id + 1 })

/-- `CRUD.add_assigned_classes`: append one row. -/
def add_assigned_classes (db : Db) (tp_id : Int) (user_id : Nat)
    (class_1 class_2 class_3 : String) : Db :=
  { db with assigned := db.assigned ++
      [{ tp_id := tp_id, user_id := user_id
         class_1 := class_1, class_2 := class_2, class_3 := class_3 }] }

/-- `CRUD.add_file_record`: append one file row. -/
def add_file_record (db : Db) (user_id : Nat) (drive_file_id file_type path : String)
    (original_filename stored_filename : Option String) (size_bytes : Option Nat)
    (tp_id : Option Int) : Db :=
  { db with files := db.files ++
      [{ user_id := user_id, tp_id := tp_id, drive_file_id := drive_file_id
         file_type := file_type, path := path
         original_filename := original_filename, stored_filename := stored_filename
         size_bytes := size_bytes }] }

/-- `CRUD.add_activity_log`: append one audit row. -/
def add_activity_log (db : Db) (user_id : Option Nat) (action_key details : String) : Db :=
  { db with logs := db.logs ++ [{ user_id := user_id, action_key := action_key
                                  details := details }] }

/-- `CRUD.update_user_submission_status`: set the flag of the user with that id. -/
def update_user_submission_status (db : Db) (user_id : Nat) (hs : Bool) : Db :=
  { db with users := db.users.map (fun u =>
      if u.id = user_id then { u with has_submitted := hs } else u) }

/-- One constructor per distinct raise site of the embedded services. -/
inductive RegError where
  /-- 404 "TP (Training Period) not found." -/
  | tpNotFound
  /-- 400 "Registration is only allowed between ... and ..." with the two bounds. -/
  | outOfWindow (allowed_start allowed_end : Int)
  /-- 400 "This student ID is already registered with a different email." -/
  | emailMismatch
  /-- 500 "Sampled authors have no files associated." -/
  | noFilesForSampledAuthors
  /-- an uncaught `ValueError` (e.g. `random.sample` on a too-small population,
      or `int(...)` on an unparsable string) -/
  | valueError
  /-- an uncaught `IndexError` -/
  | indexError
  /-- 404 "Student not found." -/
  | studentNotFound
  /-- 400 "Student has already submitted their final work." -/
  | alreadySubmitted
  /-- 400 "File must be a .ipynb notebook." -/
  | notNotebookFile
  /-- 400 "Embedding file must be a .txt file." -/
  | notTxtFile
  /-- 500 "Failed to upload file to GitHub." -/
  | githubUploadFailed
  deriving DecidableEq

/-- `RegistrationService._validate_tp_timing`: fetch the TP, compute
`allowed_end_time = min(start + max_access_hours, end + grace_minutes)` and accept
exactly when `allowed_start_time <= now <= allowed_end_time`. -/
def validate_tp_timing (db : Db) (now : Int) (tp_id : Int) : Except RegError Tps :=
  match get_tp_by_id db tp_id with
  | none => .error .tpNotFound
  | some tp =>
      let allowed_start_time := tp.start_time
      let max_access_end := tp.start_time + 60 * tp.max_access_hours
      let hard_end := tp.end_time + tp.grace_minutes
      let allowed_end_time := min max_access_end hard_end
      if allowed_start_time ≤ now ∧ now ≤ allowed_end_time then .ok tp
      else .error (.outOfWindow allowed_start_time allowed_end_time)

/-- The scenario TP of claim C2 with `T = 0`: start 0, end 24h = 1440 min,
grace 15 min, max access 4 h. -/
def tpScenario : Tps :=
  { tp_id := 1, start_time := 0, end_time := 1440, grace_minutes := 15
    max_access_hours := 4 }

/-- A store holding only the scenario TP. -/
def dbScenario : Db :=
  { tps := [tpScenario], users := [], assigned := [], files := [], hidden := []
    logs := [], next_user_id := 0 }

/-- Claim C2: for every stored TP and every `now`, the validator computes
`effective_end = min(start_time + max_access_hours, end_time + grace_minutes)`,
accepts exactly when `start_time ≤ now ≤ effective_end` and otherwise fails
out-of-window carrying both computed bounds; on the scenario TP (start T=0,
max_access_hours 4, end T+24h, grace 15) it accepts at T+2h, rejects at
T+4h+1min with end bound T+4h, and rejects at T+25h. -/
theorem validate_tp_timing_window :
    (∀ (db : Db) (now tp_id : Int) (tp : Tps), get_tp_by_id db tp_id = some tp →
      (validate_tp_timing db now tp_id = .ok tp ↔
        (tp.start_time ≤ now ∧
          now ≤ min (tp.start_time + 60 * tp.max_access_hours)
                    (tp.end_time + tp.grace_minutes))) ∧
      (¬ (tp.start_time ≤ now ∧
            now ≤ min (tp.start_time + 60 * tp.max_access_hours)
                      (tp.end_time + tp.grace_minutes)) →
        validate_tp_timing db now tp_id =
          .error (.outOfWindow tp.start_time
            (min (tp.start_time + 60 * tp.max_access_hours)
                 (tp.end_time + tp.grace_minutes))))) ∧
    validate_tp_timing dbScenario 120 1 = .ok tpScenario ∧
    validate_tp_timing dbScenario 241 1 = .error (.outOfWindow 0 240) ∧
    validate_tp_timing dbScenario 1500 1 = .error (.outOfWindow 0 240) := by
  refine ⟨fun db now tp_id tp h => ?_, by decide, by decide, by decide⟩
  unfold validate_tp_timing
  rw [h]
  dsimp only
  by_cases hc : tp.start_time ≤ now ∧
      now ≤ min (tp.start_time + 60 * tp.max_access_hours)
                (tp.end_time + tp.grace_minutes)
  · rw [if_pos hc]
    exact ⟨⟨fun _ => hc, fun _ => rfl⟩, fun hnc => absurd hc hnc⟩
  · rw [if_neg hc]
    exact ⟨⟨fun he => by simp at he, fun hcc => absurd hcc hc⟩, fun _ => rfl⟩

/-- Witness for C2: the universally quantified part applied to the scenario store. -/
theorem validate_tp_timing_window_witness :
    validate_tp_timing dbScenario 120 1 = .ok tpScenario ↔
      (tpScenario.start_time ≤ 120 ∧
        120 ≤ min (tpScenario.start_time + 60 * tpScenario.max_access_hours)
                  (tpScenario.end_time + tpScenario.grace_minutes)) :=
  (validate_tp_timing_window.1 dbScenario 120 1 tpScenario rfl).1

/-- ASCII member of the regex class `\w`: alphanumeric or underscore. -/
def isWordChar (c : Char) : Bool := c.isAlphanum || c == '_'

/-- ASCII member of the regex class `\s` (space, tab, newline, carriage return,
vertical tab, form feed). -/
def isSpaceChar (c : Char) : Bool :=
  c == ' ' || c == '\t' || c == '\n' || c == '\r' || c == Char.ofNat 11 || c == Char.ofNat 12

/-- A character kept by `re.sub(r'[^\w\s-]', '', name)`. -/
def keepChar (c : Char) : Bool := isWordChar c || isSpaceChar c || c == '-'

/-- A character of the run class `[-\s]`. -/
def isSepChar (c : Char) : Bool := isSpaceChar c || c == '-'

/-- `re.sub(r'[-\s]+', '_', s)`: each maximal run of `[-\s]` characters becomes one
underscore.  The Boolean records whether the previous character was inside a run. -/
def collapseSepRuns : Bool → List Char → List Char
  | _, [] => []
  | inRun, c :: rest =>
      if isSepChar c then
        if inRun then collapseSepRuns true rest
        else '_' :: collapseSepRuns true rest
      else c :: collapseSepRuns false rest

/-- Python `str.strip()` on a character list. -/
def stripChars (l : List Char) : List Char :=
  ((l.dropWhile isSpaceChar).reverse.dropWhile isSpaceChar).reverse

/-- `RegistrationService._sanitize_name`: drop characters outside `[\w\s-]`, trim,
then collapse every `[-\s]+` run to a single underscore. -/
def sanitize_name (name : String) : String :=
  String.mk (collapseSepRuns false (stripChars (name.data.filter keepChar)))

theorem sep_char_cases {c : Char} (h : isSepChar c = true) :
    c = ' ' ∨ c = '\t' ∨ c = '\n' ∨ c = '\r' ∨ c = Char.ofNat 11 ∨ c = Char.ofNat 12 ∨
      c = '-' := by
  simp only [isSepChar, isSpaceChar, Bool.or_eq_true, beq_iff_eq] at h
  tauto

theorem sep_not_word {c : Char} (h : isSepChar c = true) : isWordChar c = false := by
  rcases sep_char_cases h with h | h | h | h | h | h | h <;> subst h <;> decide

theorem word_not_sep {c : Char} (h : isWordChar c = true) : isSepChar c = false := by
  cases hs : isSepChar c with
  | false => rfl
  | true => rw [sep_not_word hs] at h; cases h

theorem keep_not_sep_word {c : Char} (hk : keepChar c = true) (hs : isSepChar c = false) :
    isWordChar c = true := by
  have hs' := hs
  simp only [isSepChar, Bool.or_eq_false_iff] at hs'
  simp only [keepChar, Bool.or_eq_true] at hk
  rcases hk with (hw | hsp) | hd
  · exact hw
  · rw [hsp] at hs'; cases hs'.1
  · rw [hd] at hs'; cases hs'.2

theorem collapseSepRuns_all_word :
    ∀ (l : List Char), (∀ c ∈ l, keepChar c = true) →
      ∀ (b : Bool), ∀ c ∈ collapseSepRuns b l, isWordChar c = true := by
  intro l
  induction l with
  | nil => intro _ b c hc; simp [collapseSepRuns] at hc
  | cons a t ih =>
      intro hl b c hc
      have ha : keepChar a = true := hl a (by simp)
      have ht : ∀ x ∈ t, keepChar x = true := fun x hx => hl x (by simp [hx])
      by_cases hsep : isSepChar a = true
      · rw [collapseSepRuns, if_pos hsep] at hc
        cases b with
        | true => exact ih ht true c hc
        | false =>
            rcases List.mem_cons.mp hc with hc | hc
            · subst hc; decide
            · exact ih ht true c hc
      · rw [collapseSepRuns, if_neg hsep] at hc
        rcases List.mem_cons.mp hc with hc | hc
        · subst hc
          exact keep_not_sep_word ha (by simpa using hsep)
        · exact ih ht false c hc

theorem mem_stripChars {c : Char} {l : List Char} (h : c ∈ stripChars l) : c ∈ l := by
  unfold stripChars at h
  rw [List.mem_reverse] at h
  have h1 : c ∈ (l.dropWhile isSpaceChar).reverse := (List.dropWhile_sublist _).subset h
  rw [List.mem_reverse] at h1
  exact (List.dropWhile_sublist _).subset h1

theorem sanitize_name_chars (s : String) :
    ∀ c ∈ (sanitize_name s).data, isWordChar c = true := by
  intro c hc
  have hk : ∀ x ∈ stripChars (s.data.filter keepChar), keepChar x = true := by
    intro x hx
    exact List.of_mem_filter (mem_stripChars hx)
  exact collapseSepRuns_all_word _ hk false c hc

theorem filter_keep_of_word (l : List Char) (h : ∀ c ∈ l, isWordChar c = true) :
    l.filter keepChar = l := by
  rw [List.filter_eq_self]
  intro c hc
  simp [keepChar, h c hc]

theorem dropWhile_space_of_word (l : List Char) (h : ∀ c ∈ l, isWordChar c = true) :
    l.dropWhile isSpaceChar = l := by
  cases l with
  | nil => rfl
  | cons a t =>
      have ha : isSepChar a = false := word_not_sep (h a (by simp))
      have hsp : isSpaceChar a = false := by
        simp only [isSepChar, Bool.or_eq_false_iff] at ha
        exact ha.1
      rw [List.dropWhile_cons, hsp]
      simp

theorem stripChars_of_word (l : List Char) (h : ∀ c ∈ l, isWordChar c = true) :
    stripChars l = l := by
  unfold stripChars
  rw [dropWhile_space_of_word l h,
    dropWhile_space_of_word l.reverse (fun c hc => h c (List.mem_reverse.mp hc)),
    List.reverse_reverse]

theorem collapseSepRuns_of_word (l : List Char) (h : ∀ c ∈ l, isWordChar c = true) :
    collapseSepRuns false l = l := by
  induction l with
  | nil => rfl
  | cons a t ih =>
      have ha : isSepChar a = false := word_not_sep (h a (by simp))
      rw [collapseSepRuns, if_neg (by simp [ha])]
      rw [ih (fun c hc => h c (by simp [hc]))]

theorem sanitize_name_fixed (x : String) (h : ∀ c ∈ x.data, isWordChar c = true) :
    sanitize_name x = x := by
  obtain ⟨d⟩ := x
  unfold sanitize_name
  dsimp only at h ⊢
  rw [filter_keep_of_word d h, stripChars_of_word d h, collapseSepRuns_of_word d h]

/-- Claim C10: `_sanitize_name` is idempotent, and its output contains only word
characters (so no whitespace and no hyphens): any path segment built from a
sanitized name is stable under re-sanitization. -/
theorem sanitize_name_idempotent :
    ∀ s : String,
      sanitize_name (sanitize_name s) = sanitize_name s ∧
      ∀ c ∈ (sanitize_name s).data,
        isWordChar c = true ∧ isSpaceChar c = false ∧ c ≠ '-' := by
  intro s
  refine ⟨sanitize_name_fixed _ (sanitize_name_chars s), fun c hc => ?_⟩
  have hw : isWordChar c = true := sanitize_name_chars s c hc
  have hs : isSepChar c = false := word_not_sep hw
  simp only [isSepChar, Bool.or_eq_false_iff] at hs
  refine ⟨hw, hs.1, fun hd => ?_⟩
  subst hd
  rw [show isWordChar '-' = false from by decide] at hw
  cases hw

/-- Witness for C10 at a concrete mixed input. -/
theorem sanitize_name_idempotent_witness :
    sanitize_name (sanitize_name "Jean-Luc  de Foo!") = sanitize_name "Jean-Luc  de Foo!" :=
  (sanitize_name_idempotent "Jean-Luc  de Foo!").1

/-- One data row of `metadata.csv` as read by `DataService.load_metadata`
(all fields are the raw CSV strings). -/
structure CsvRow where
  Author : String
  AuthorID : String
  FileName : String
  FilePath : String
  deriving DecidableEq

/-- The in-memory state of `DataService` after a successful `load_metadata`. -/
structure DataServiceState where
  metadata_list : List CsvRow
  authors : List String
  author_ids : List Int
  deriving DecidableEq

/-- A non-empty all-digit character list read as a decimal number. -/
def parse_nat_digits (l : List Char) : Option Nat :=
  if l.isEmpty then none
  else if l.all Char.isDigit then
    some (l.foldl (fun acc c => 10 * acc + (c.toNat - 48)) 0)
  else none

/-- Python `int(s)` on an already-stripped string: optional sign then decimal
digits, `None` (a `ValueError`) on anything else. -/
def parse_int (s : String) : Option Int :=
  match s.data with
  | '-' :: ds => (parse_nat_digits ds).map (fun n => -(n : Int))
  | '+' :: ds => (parse_nat_digits ds).map (fun n => (n : Int))
  | ds => (parse_nat_digits ds).map (fun n => (n : Int))

/-- `DataService.load_metadata` (after the CSV download/split): keep every row,
collect the distinct `Author` values, and parse every `AuthorID` with `int(...)`,
collecting the distinct ids.  A row whose `AuthorID` does not parse raises
`ValueError`; no row is dropped. -/
def load_metadata (rows : List CsvRow) : Except RegError DataServiceState :=
  match rows.mapM (fun r => parse_int r.AuthorID) with
  | none => .error .valueError
  | some ids =>
      .ok { metadata_list := rows
            authors := (rows.map (fun r => r.Author)).dedup
            author_ids := ids.dedup }

/-- `DataService.sample_authors`: `random.sample(self.authors, num_authors)`.
The random source is the oracle `pick`; `random.sample` raises `ValueError`
when the requested size exceeds the population. -/
def sample_authors (pick : List String → Nat → List String)
    (ds : DataServiceState) (num_authors : Nat) : Except RegError (List String) :=
  if num_authors ≤ ds.authors.length then .ok (pick ds.authors num_authors)
  else .error .valueError

/-- `DataService.get_files_for_authors`: the metadata rows whose author is in the set. -/
def get_files_for_authors (ds : DataServiceState) (authors : List String) : List CsvRow :=
  ds.metadata_list.filter (fun r => authors.contains r.Author)

/-- One element of the list returned by `select_hidden_test_ids`. -/
structure HiddenItem where
  text_id : Nat
  ground_truth : Int
  deriving DecidableEq

/-- `DataService.select_hidden_test_ids`.  `int(num_files * 0.10)` equals
`num_files / 10` (floor division) for every length a materialised list can have
(the first floating-point divergence is near 10^16), so it is embedded as Nat
division.  `random.sample(range(num_files), k)` is the oracle `pickIdx`;
`int(row[AuthorID])` raises `ValueError` on an unparsable field. -/
def select_hidden_test_ids (pickIdx : Nat → Nat → List Nat)
    (student_files_list : List CsvRow) (min_hidden : Nat := 1) :
    Except RegError (List HiddenItem) :=
  let num_files := student_files_list.length
  let num_hidden := max min_hidden (num_files / 10)
  if num_files = 0 then .ok []
  else
    let hidden_indices := pickIdx num_files (min num_hidden num_files)
    hidden_indices.mapM (fun i =>
      match student_files_list[i]? with
      | none => .error .indexError
      | some row =>
          match parse_int row.AuthorID with
          | none => .error .valueError
          | some gt => .ok { text_id := i, ground_truth := gt })

/-- What `random.sample(range(n), k)` guarantees for `k ≤ n`: `k` pairwise distinct
indices below `n`. -/
def ValidIdxPick (pick : Nat → Nat → List Nat) : Prop :=
  ∀ n k, k ≤ n →
    (pick n k).length = k ∧ (pick n k).Nodup ∧ ∀ i ∈ pick n k, i < n

/-- A concrete index sampler: the first `k` indices. -/
def takeIdxPick (n k : Nat) : List Nat := (List.range n).take k

theorem takeIdxPick_valid : ValidIdxPick takeIdxPick := by
  intro n k hk
  refine ⟨?_, ?_, ?_⟩
  · rw [takeIdxPick, List.length_take, List.length_range]
    exact Nat.min_eq_left hk
  · exact List.Nodup.sublist (List.take_sublist _ _) (List.nodup_range n)
  · intro i hi
    exact List.mem_range.mp ((List.take_sublist _ _).subset hi)

theorem except_mapM_ok_of_forall {α β : Type} (F : α → Except RegError β) (g : α → β)
    (l : List α) (h : ∀ a ∈ l, F a = .ok (g a)) : l.mapM F = .ok (l.map g) := by
  induction l with
  | nil => rfl
  | cons a t ih =>
      rw [List.mapM_cons, h a (by simp), ih (fun x hx => h x (by simp [hx]))]
      rfl

/-- The ground truth recorded for slice index `i` (total version used to state
what the successful run of `select_hidden_test_ids` returns). -/
def hidden_gt (files : List CsvRow) (i : Nat) : Int :=
  (files[i]?.bind (fun r => parse_int r.AuthorID)).getD 0

/-- Claim C4: on a slice of size `N`, `select_hidden_test_ids` yields exactly
`max(1, floor(0.10*N))` items when `N > 0` and zero items when `N = 0`, with
pairwise distinct `text_id` indices inside `[0, N)`. -/
theorem select_hidden_test_ids_spec :
    ∀ (pick : Nat → Nat → List Nat) (files : List CsvRow), ValidIdxPick pick →
      (∀ r ∈ files, (parse_int r.AuthorID).isSome = true) →
      ∃ items, select_hidden_test_ids pick files 1 = .ok items ∧
        (files.length = 0 → items = []) ∧
        (0 < files.length → items.length = max 1 (files.length / 10)) ∧
        (items.map HiddenItem.text_id).Nodup ∧
        (∀ it ∈ items, it.text_id < files.length) := by
  intro pick files hv hp
  by_cases h0 : files.length = 0
  · refine ⟨[], ?_, fun _ => rfl, fun hlt => absurd h0 (by omega), by simp, by simp⟩
    unfold select_hidden_test_ids
    rw [if_pos h0]
  · have hpos : 0 < files.length := Nat.pos_of_ne_zero h0
    have hle : max 1 (files.length / 10) ≤ files.length :=
      max_le hpos (Nat.div_le_self _ _)
    have hmin : min (max 1 (files.length / 10)) files.length = max 1 (files.length / 10) :=
      Nat.min_eq_left hle
    obtain ⟨hlen, hnd, hmem⟩ :=
      hv files.length (min (max 1 (files.length / 10)) files.length) (Nat.min_le_right _ _)
    set idxs := pick files.length (min (max 1 (files.length / 10)) files.length) with hidxs
    have hF : ∀ i ∈ idxs,
        (fun i => match files[i]? with
          | none => Except.error RegError.indexError
          | some row =>
              match parse_int row.AuthorID with
              | none => Except.error RegError.valueError
              | some gt => Except.ok { text_id := i, ground_truth := gt : HiddenItem }) i =
        .ok { text_id := i, ground_truth := hidden_gt files i } := by
      intro i hi
      have hiL : i < files.length := hmem i hi
      have hrow : files[i]? = some files[i] := List.getElem?_eq_getElem hiL
      set row := files[i] with hrowdef
      have hrm : row ∈ files := List.getElem_mem hiL
      obtain ⟨v, hvv⟩ := Option.isSome_iff_exists.mp (hp row hrm)
      have hgt : hidden_gt files i = v := by
        rw [hidden_gt, hrow]
        simp [hvv]
      simp only [hrow, hvv, hgt]
    refine ⟨idxs.map (fun i => { text_id := i, ground_truth := hidden_gt files i }), ?_,
      fun hz => absurd hz h0, fun _ => ?_, ?_, ?_⟩
    · unfold select_hidden_test_ids
      rw [if_neg h0]
      exact except_mapM_ok_of_forall _ _ idxs hF
    · rw [List.length_map, hlen, hmin]
    · have hproj : ∀ (l : List Nat),
          (l.map (fun i =>
            ({ text_id := i, ground_truth := hidden_gt files i } : HiddenItem))).map
              HiddenItem.text_id = l := by
        intro l
        induction l with
        | nil => rfl
        | cons a t ih => simp [ih]
      rw [hproj]
      exact hnd
    · intro it hit
      obtain ⟨i, hi, hieq⟩ := List.mem_map.mp hit
      cases hieq
      exact hmem i hi

/-- A concrete metadata row used by the concrete instances below. -/
def wRow : CsvRow :=
  { Author := "A", AuthorID := "1", FileName := "a.txt", FilePath := "data/A/a.txt" }

/-- Witness for C4: the specification applied to the singleton slice. -/
theorem select_hidden_test_ids_spec_witness :
    ∃ items, select_hidden_test_ids takeIdxPick [wRow] 1 = .ok items ∧
      (([wRow] : List CsvRow).length = 0 → items = []) ∧
      (0 < ([wRow] : List CsvRow).length →
        items.length = max 1 (([wRow] : List CsvRow).length / 10)) ∧
      (items.map HiddenItem.text_id).Nodup ∧
      (∀ it ∈ items, it.text_id < ([wRow] : List CsvRow).length) :=
  select_hidden_test_ids_spec takeIdxPick [wRow] takeIdxPick_valid (by decide)

/-- A metadata source whose second row has the unparsable AuthorID `"x7"`. -/
def badRows : List CsvRow :=
  [ { Author := "A", AuthorID := "1", FileName := "a.txt", FilePath := "pa" },
    { Author := "B", AuthorID := "x7", FileName := "b.txt", FilePath := "pb" } ]

/-- Counterexample to claim C9: loading a source that contains a row with an
unparsable AuthorID does not succeed with the row excluded — it fails with the
`ValueError` of `int(row[AuthorID])`. -/
theorem load_metadata_unparsable_fails :
    load_metadata badRows = .error .valueError := by
  decide

theorem option_mapM_eq_none {α β : Type} (f : α → Option β) (l : List α)
    (h : ∃ a ∈ l, f a = none) : l.mapM f = none := by
  induction l with
  | nil => simp at h
  | cons a t ih =>
      rcases h with ⟨b, hb, hfb⟩
      rw [List.mapM_cons]
      rcases List.mem_cons.mp hb with rfl | hbt
      · rw [hfb]; rfl
      · cases hfa : f a with
        | none => rfl
        | some v => rw [ih ⟨b, hbt, hfb⟩]; rfl

theorem option_mapM_isSome {α β : Type} (f : α → Option β) (l : List α)
    (h : ∀ a ∈ l, (f a).isSome = true) : ∃ v, l.mapM f = some v := by
  induction l with
  | nil => exact ⟨[], rfl⟩
  | cons a t ih =>
      obtain ⟨v, hv⟩ := Option.isSome_iff_exists.mp (h a (by simp))
      obtain ⟨vs, hvs⟩ := ih (fun x hx => h x (by simp [hx]))
      exact ⟨v :: vs, by rw [List.mapM_cons, hv, hvs]; rfl⟩

/-- Claim C9 amended: a row whose AuthorID does not parse as an integer makes
`load_metadata` fail (`ValueError`); no row is dropped.  When every AuthorID
parses, the load succeeds keeping every row, with `authors` the distinct
`Author` values of the source. -/
theorem load_metadata_spec :
    (∀ rows : List CsvRow, (∃ r ∈ rows, parse_int r.AuthorID = none) →
      load_metadata rows = .error .valueError) ∧
    (∀ rows : List CsvRow, (∀ r ∈ rows, (parse_int r.AuthorID).isSome = true) →
      ∃ st, load_metadata rows = .ok st ∧ st.metadata_list = rows ∧
        st.authors = (rows.map (fun r => r.Author)).dedup) := by
  constructor
  · intro rows h
    unfold load_metadata
    rw [option_mapM_eq_none _ _ h]
  · intro rows h
    obtain ⟨ids, hids⟩ := option_mapM_isSome _ _ h
    refine ⟨{ metadata_list := rows
              authors := (rows.map (fun r => r.Author)).dedup
              author_ids := ids.dedup }, ?_, rfl, rfl⟩
    unfold load_metadata
    rw [hids]

/-- Witness for the amended C9 on an all-parsable source. -/
theorem load_metadata_spec_witness :
    ∃ st, load_metadata [wRow] = .ok st ∧ st.metadata_list = [wRow] ∧
      st.authors = (([wRow] : List CsvRow).map (fun r => r.Author)).dedup :=
  load_metadata_spec.2 [wRow] (by decide)

/-- The manifest row before `drop(columns=[AuthorID])` (lines 158–163). -/
structure StudentMetaFull where
  id : Nat
  FilePath : String
  AuthorID : String
  label_is_available : Nat
  deriving DecidableEq

/-- A student-facing manifest row after the drop: only id, path and label flag. -/
structure StudentMetaRow where
  id : Nat
  FilePath : String
  label_is_available : Nat
  deriving DecidableEq

/-- Lines 158–163 of `register_student`: copy FilePath and AuthorID, insert `id`
as the positional index, and set `label_is_available` to 0 exactly on the hidden
indices. -/
def build_student_meta_full (files : List CsvRow) (hidden_ids : List Nat) :
    List StudentMetaFull :=
  (List.range files.length).map (fun i =>
    { id := i
      FilePath := (files[i]?.map (fun r => r.FilePath)).getD ""
      AuthorID := (files[i]?.map (fun r => r.AuthorID)).getD ""
      label_is_available := if i ∈ hidden_ids then 0 else 1 })

/-- Line 165: drop the AuthorID column — the manifest written to `meta.csv`. -/
def build_student_meta (files : List CsvRow) (hidden_ids : List Nat) :
    List StudentMetaRow :=
  (build_student_meta_full files hidden_ids).map
    (fun r => { id := r.id, FilePath := r.FilePath
                label_is_available := r.label_is_available })

/-- Claim C7: the student manifest has one row per slice row, carrying exactly the
local sequential id (the slice index), the file path, and a binary flag that is 0
exactly on hidden indices; the row type carries no AuthorID (ground truth) field. -/
theorem build_student_meta_spec :
    ∀ (files : List CsvRow) (hidden_ids : List Nat),
      (build_student_meta files hidden_ids).length = files.length ∧
      (∀ (i : Nat) (x : CsvRow), files[i]? = some x →
        (build_student_meta files hidden_ids)[i]? =
          some { id := i, FilePath := x.FilePath
                 label_is_available := if i ∈ hidden_ids then 0 else 1 }) ∧
      (∀ r ∈ build_student_meta files hidden_ids,
        (r.label_is_available = 0 ↔ r.id ∈ hidden_ids) ∧
        (r.label_is_available = 1 ↔ r.id ∉ hidden_ids)) := by
  intro files hidden_ids
  refine ⟨?_, ?_, ?_⟩
  · unfold build_student_meta build_student_meta_full
    rw [List.length_map, List.length_map, List.length_range]
  · intro i x hx
    have hiL : i < files.length := by
      by_contra hn
      rw [List.getElem?_eq_none (by omega)] at hx
      cases hx
    unfold build_student_meta build_student_meta_full
    rw [List.getElem?_map, List.getElem?_map, List.getElem?_range hiL]
    simp [hx]
  · intro r hr
    unfold build_student_meta build_student_meta_full at hr
    rcases List.mem_map.mp hr with ⟨rf, hrf, hproj⟩
    rcases List.mem_map.mp hrf with ⟨i, _, hfi⟩
    cases hproj
    cases hfi
    by_cases him : i ∈ hidden_ids <;> simp [him]

/-- Witness for C7 on a singleton slice with its only index hidden. -/
theorem build_student_meta_spec_witness :
    (build_student_meta [wRow] [0])[0]? =
      some { id := 0, FilePath := wRow.FilePath
             label_is_available := if 0 ∈ ([0] : List Nat) then 0 else 1 } :=
  (build_student_meta_spec [wRow] [0]).2.1 0 wRow rfl

/-- Python `s.lower()` (character-wise). -/
def str_lower (s : String) : String := String.mk (s.data.map Char.toLower)

/-- Python `s.startswith(pre)`. -/
def str_starts (s pre : String) : Bool := pre.data.isPrefixOf s.data

/-- Python `s.endswith(suf)`. -/
def str_ends (s suf : String) : Bool := suf.data.isSuffixOf s.data

/-- Does `sub` occur as a contiguous run of `l`? -/
def contains_aux (sub : List Char) : List Char → Bool
  | [] => sub.isEmpty
  | c :: rest => sub.isPrefixOf (c :: rest) || contains_aux sub rest

/-- Python substring test `sub in s`. -/
def str_contains (s sub : String) : Bool := contains_aux sub.data s.data

/-- Lines 402–407 of `upload_submission`: the strict file-extension rules, on the
lowercased filename. -/
def extension_check (file_type : String) (original_filename : String) :
    Except RegError Unit :=
  let name_lower := str_lower original_filename
  if str_starts file_type "ipynb" && !(str_ends name_lower ".ipynb") then
    .error .notNotebookFile
  else if file_type == "embeddings" && !(str_ends name_lower ".txt") then
    .error .notTxtFile
  else .ok ()

/-- Lines 412–426: the stored filename derived from kind prefix, student id and
sanitized name (falling back to the original name for unexpected kinds). -/
def new_filename_for (file_type student_id sanitized original_filename : String) :
    String :=
  if str_starts file_type "ipynb" then
    (if str_contains file_type "textprocess" then "textprocess"
     else if str_contains file_type "classifier" then "classifier"
     else "notebook") ++ "_" ++ student_id ++ "_" ++ sanitized ++ ".ipynb"
  else if file_type == "embeddings" then
    "embeddings_" ++ student_id ++ "_" ++ sanitized ++ ".txt"
  else
    if original_filename != "" then original_filename
    else "file_" ++ student_id ++ "_" ++ sanitized

/-- The external world of one `upload_submission` call: whether the code-host
upload succeeds, and the URL it reports. -/
structure SubEnv where
  github_ok : Bool
  github_html_url : String

/-- The dict returned by `upload_submission`. -/
structure SubResult where
  student_id : String
  github_url : String
  path : String
  deriving DecidableEq

/-- `RegistrationService.upload_submission`: user lookup, terminal-gate check,
extension rules, code-host upload, file record + audit log, and the
`has_submitted` transition exactly for the `"embeddings"` kind. -/
def upload_submission (env : SubEnv) (db : Db) (student_id : String)
    (file_content_len : Nat) (file_type original_filename : String) (tp_id : Int) :
    Except RegError (SubResult × Db) :=
  match get_user_by_student_id db student_id with
  | none => .error .studentNotFound
  | some user =>
      if user.has_submitted then .error .alreadySubmitted
      else
        match extension_check file_type original_filename with
        | .error e => .error e
        | .ok _ =>
            let sanitized := sanitize_name user.full_name
            let new_filename := new_filename_for file_type student_id sanitized
              original_filename
            let github_file_path := student_id ++ "_" ++ sanitized ++ "/" ++ new_filename
            if !env.github_ok then .error .githubUploadFailed
            else
              let db1 := add_file_record db user.id env.github_html_url file_type
                github_file_path (some original_filename) (some new_filename)
                (some file_content_len) (some tp_id)
              let db2 := add_activity_log db1 (some user.id) "submission"
                ("Student " ++ student_id ++ " submitted " ++ new_filename ++
                  " (saved to GitHub)")
              let db3 := if file_type == "embeddings" then
                  update_user_submission_status db2 user.id true
                else db2
              .ok ({ student_id := student_id, github_url := env.github_html_url
                     path := github_file_path }, db3)

/-- Claim C8: the file-type check rejects exactly a kind starting with `"ipynb"`
whose (lowercased) filename does not end in `.ipynb`, and the kind
`"embeddings"` whose (lowercased) filename does not end in `.txt`; every other
combination passes. -/
theorem extension_check_spec :
    ∀ (file_type original_filename : String),
      (extension_check file_type original_filename ≠ .ok () ↔
        (str_starts file_type "ipynb" = true ∧
          str_ends (str_lower original_filename) ".ipynb" = false) ∨
        (file_type = "embeddings" ∧
          str_ends (str_lower original_filename) ".txt" = false)) ∧
      (extension_check file_type original_filename = .ok () ∨
        extension_check file_type original_filename = .error .notNotebookFile ∨
        extension_check file_type original_filename = .error .notTxtFile) := by
  intro ft fn
  unfold extension_check
  dsimp only
  split_ifs with h1 h2
  · rw [Bool.and_eq_true, Bool.not_eq_true'] at h1
    refine ⟨⟨fun _ => Or.inl h1, fun _ => by simp⟩, Or.inr (Or.inl rfl)⟩
  · rw [Bool.and_eq_true, Bool.not_eq_true'] at h2
    refine ⟨⟨fun _ => Or.inr ⟨by simpa using h2.1, h2.2⟩, fun _ => by simp⟩,
      Or.inr (Or.inr rfl)⟩
  · refine ⟨⟨fun hne => absurd rfl hne, fun hor => ?_⟩, Or.inl rfl⟩
    exfalso
    rcases hor with ⟨hs, he⟩ | ⟨hs, he⟩
    · exact h1 (by rw [Bool.and_eq_true, Bool.not_eq_true']; exact ⟨hs, he⟩)
    · exact h2 (by rw [Bool.and_eq_true, Bool.not_eq_true']; exact ⟨by simp [hs], he⟩)

/-- Witness for C8: the characterization at a rejected concrete combination. -/
theorem extension_check_spec_witness :
    extension_check "ipynb" "a.doc" ≠ .ok () ↔
      (str_starts "ipynb" "ipynb" = true ∧
        str_ends (str_lower "a.doc") ".ipynb" = false) ∨
      (("ipynb" : String) = "embeddings" ∧
        str_ends (str_lower "a.doc") ".txt" = false) :=
  (extension_check_spec "ipynb" "a.doc").1

theorem find_map_pres {α : Type} (p : α → Bool) (f : α → α) (l : List α)
    (hf : ∀ x, p (f x) = p x) (a : α) (h : l.find? p = some a) :
    (l.map f).find? p = some (f a) := by
  induction l with
  | nil => exact Option.noConfusion h
  | cons b t ih =>
      cases hb : p b with
      | true =>
          rw [List.find?_cons_of_pos _ hb] at h
          injection h with h
          subst h
          rw [List.map_cons, List.find?_cons_of_pos _ (by rw [hf, hb])]
      | false =>
          have hb' : ¬ p b = true := by simp [hb]
          rw [List.find?_cons_of_neg _ hb'] at h
          rw [List.map_cons, List.find?_cons_of_neg _ (by rw [hf]; exact hb')]
          exact ih h

/-- Claim C5: once `has_submitted` is true every `upload_submission` call fails
with AlreadySubmitted, whatever the kind; and on a successful call the user's
`has_submitted` flag ends up true exactly when the kind is `"embeddings"` — the
single transition point of the terminal gate. -/
theorem upload_submission_gate :
    (∀ (env : SubEnv) (db : Db) (student_id : String) (len : Nat)
        (file_type original_filename : String) (tp_id : Int) (u : User),
      get_user_by_student_id db student_id = some u → u.has_submitted = true →
      upload_submission env db student_id len file_type original_filename tp_id =
        .error .alreadySubmitted) ∧
    (∀ (env : SubEnv) (db : Db) (student_id : String) (len : Nat)
        (file_type original_filename : String) (tp_id : Int) (r : SubResult)
        (db' : Db),
      upload_submission env db student_id len file_type original_filename tp_id =
        .ok (r, db') →
      ((get_user_by_student_id db' student_id).map User.has_submitted = some true ↔
        file_type = "embeddings")) := by
  constructor
  · intro env db sid len ft fn tp u hget hsub
    unfold upload_submission
    rw [hget]
    dsimp only
    rw [if_pos hsub]
  · intro env db sid len ft fn tp r db' h
    unfold upload_submission at h
    cases hget : get_user_by_student_id db sid with
    | none => rw [hget] at h; exact Except.noConfusion h
    | some u =>
        rw [hget] at h
        dsimp only at h
        by_cases hsub : u.has_submitted = true
        · rw [if_pos hsub] at h; exact Except.noConfusion h
        · rw [if_neg hsub] at h
          cases hext : extension_check ft fn with
          | error e => rw [hext] at h; exact Except.noConfusion h
          | ok v =>
              rw [hext] at h
              dsimp only at h
              cases hgo : env.github_ok with
              | false => rw [hgo] at h; simp at h
              | true =>
                  rw [hgo] at h
                  simp only [Bool.not_true] at h
                  rw [if_neg (by simp)] at h
                  injection h with h1
                  injection h1 with hr hdb
                  subst hdb
                  have hfind : db.users.find? (fun x => x.student_id == sid) = some u :=
                    hget
                  by_cases hemb : ft = "embeddings"
                  · rw [if_pos (by simp [hemb])]
                    have hmap := find_map_pres (fun x => x.student_id == sid)
                      (fun x => if x.id = u.id then { x with has_submitted := true }
                                else x)
                      db.users
                      (fun x => by by_cases hid : x.id = u.id <;> simp [hid]) u hfind
                    have hgoal : get_user_by_student_id
                        (update_user_submission_status
                          (add_activity_log
                            (add_file_record db u.id env.github_html_url ft
                              (sid ++ "_" ++ sanitize_name u.full_name ++ "/" ++
                                new_filename_for ft sid (sanitize_name u.full_name) fn)
                              (some fn)
                              (some (new_filename_for ft sid (sanitize_name u.full_name) fn))
                              (some len) (some tp))
                            (some u.id) "submission"
                            ("Student " ++ sid ++ " submitted " ++
                              new_filename_for ft sid (sanitize_name u.full_name) fn ++
                              " (saved to GitHub)"))
                          u.id true)
                        sid = some { u with has_submitted := true } := by
                      unfold get_user_by_student_id update_user_submission_status
                        add_activity_log add_file_record
                      dsimp only
                      rw [hmap]
                      simp
                    rw [hgoal]
                    simp [hemb]
                  · rw [if_neg (by simp [hemb])]
                    have hgoal : get_user_by_student_id
                        (add_activity_log
                          (add_file_record db u.id env.github_html_url ft
                            (sid ++ "_" ++ sanitize_name u.full_name ++ "/" ++
                              new_filename_for ft sid (sanitize_name u.full_name) fn)
                            (some fn)
                            (some (new_filename_for ft sid (sanitize_name u.full_name) fn))
                            (some len) (some tp))
                          (some u.id) "submission"
                          ("Student " ++ sid ++ " submitted " ++
                            new_filename_for ft sid (sanitize_name u.full_name) fn ++
                            " (saved to GitHub)"))
                        sid = some u := hget
                    rw [hgoal]
                    constructor
                    · intro hc
                      exfalso
                      apply hsub
                      simpa using hc
                    · intro hc
                      exact absurd hc hemb

/-- A concrete submission environment. -/
def envSub : SubEnv := { github_ok := true, github_html_url := "https://g/x" }

/-- A user who has already made the final submission. -/
def userSubmitted : User :=
  { id := 0, student_id := "s9", full_name := "A B", email := some "a@b"
    has_submitted := true }

/-- A store holding only `userSubmitted`. -/
def dbSubmitted : Db :=
  { tps := [], users := [userSubmitted], assigned := [], files := [], hidden := []
    logs := [], next_user_id := 1 }

/-- A user who has not yet submitted. -/
def userFresh : User :=
  { id := 0, student_id := "s1", full_name := "A B", email := some "a@b"
    has_submitted := false }

/-- A store holding only `userFresh`. -/
def dbFresh : Db :=
  { tps := [], users := [userFresh], assigned := [], files := [], hidden := []
    logs := [], next_user_id := 1 }

/-- The result of one concrete successful embeddings submission. -/
def subOutcome : Except RegError (SubResult × Db) :=
  upload_submission envSub dbFresh "s1" 3 "embeddings" "e.txt" 1

/-- Its result dict (total projection). -/
def subRes : SubResult :=
  match subOutcome with
  | .ok (r, _) => r
  | .error _ => { student_id := "", github_url := "", path := "" }

/-- Its post-state (total projection). -/
def subDb : Db :=
  match subOutcome with
  | .ok (_, d) => d
  | .error _ => dbFresh

/-- Witness for C5: both parts applied to concrete calls. -/
theorem upload_submission_gate_witness :
    upload_submission envSub dbSubmitted "s9" 3 "ipynb_x" "n.ipynb" 1 =
      .error .alreadySubmitted ∧
    ((get_user_by_student_id subDb "s1").map User.has_submitted = some true ↔
      ("embeddings" : String) = "embeddings") :=
  ⟨upload_submission_gate.1 envSub dbSubmitted "s9" 3 "ipynb_x" "n.ipynb" 1
      userSubmitted rfl rfl,
    upload_submission_gate.2 envSub dbFresh "s1" 3 "embeddings" "e.txt" 1
      subRes subDb (by decide)⟩

/-- Lines 128–133: Python truthiness of
`existing_user.email and existing_user.email != email` (an absent or empty
stored email never conflicts). -/
def email_conflict (stored : Option String) (supplied : String) : Bool :=
  match stored with
  | none => false
  | some e0 => !(e0 == "") && !(e0 == supplied)

/-- What `random.sample(pop, k)` guarantees for `k ≤ len(pop)`: `k` elements
drawn without replacement (distinct positions, hence distinct values when the
population has no duplicates). -/
def ValidAuthorPick (pick : List String → Nat → List String) : Prop :=
  ∀ pop k, k ≤ pop.length →
    (pick pop k).length = k ∧ (∀ a ∈ pick pop k, a ∈ pop) ∧
      (pop.Nodup → (pick pop k).Nodup)

/-- A concrete author sampler: the first `k` elements. -/
def takeAuthorPick (pop : List String) (k : Nat) : List String := pop.take k

theorem takeAuthorPick_valid : ValidAuthorPick takeAuthorPick := by
  intro pop k hk
  refine ⟨?_, ?_, ?_⟩
  · rw [takeAuthorPick, List.length_take]
    exact Nat.min_eq_left hk
  · intro a ha
    exact (List.take_sublist _ _).subset ha
  · intro hnd
    exact List.Nodup.sublist (List.take_sublist _ _) hnd

/-- `CRUD.add_hidden_test_ids`: append one row per hidden item. -/
def add_hidden_test_ids (db : Db) (tp_id : Int) (user_id : Nat)
    (hidden_ids_data : List HiddenItem) : Db :=
  { db with hidden := db.hidden ++ hidden_ids_data.map (fun h =>
      { tp_id := tp_id, user_id := user_id, text_id := h.text_id
        ground_truth := h.ground_truth }) }

/-- The environment of one `register_student` call: the
`settings.DISABLE_DRIVE_IN_DEV` flag, the two random-sampler oracles, and the id
the blob store returns for the uploaded archive. -/
structure RegEnv where
  disable_drive_in_dev : Bool
  pickAuthors : List String → Nat → List String
  pickIdx : Nat → Nat → List Nat
  new_zip_id : String

/-- The dict returned by `register_student`, plus the content of the `meta.csv`
written into the uploaded package (empty on the short-circuit and dev paths,
which build no new package). -/
structure RegResult where
  student_id : String
  assigned : List String
  drive_zip_id : Option String
  package_meta : List StudentMetaRow
  deriving DecidableEq

/-- Steps 3–6 of `register_student` (lines 146–245): sampling, hidden-test
selection, manifest build, package upload (modelled by the oracle `new_zip_id`)
and persistence, reached when no complete allocation short-circuits.  The
`authors[0..2]` accesses of line 233 become the three-element pattern match
(`IndexError` otherwise). -/
def register_allocate (env : RegEnv) (ds : DataServiceState) (db : Db)
    (existing_user : Option User) (student_id full_name email : String) (tp : Tps) :
    Except RegError (RegResult × Db) :=
  match sample_authors env.pickAuthors ds 4 with
  | .error e => .error e
  | .ok authors =>
      let student_files := get_files_for_authors ds authors
      if student_files.isEmpty then .error .noFilesForSampledAuthors
      else
        match select_hidden_test_ids env.pickIdx student_files 1 with
        | .error e => .error e
        | .ok hidden_test_data =>
            let hidden_file_ids := hidden_test_data.map (fun h => h.text_id)
            let student_meta := build_student_meta student_files hidden_file_ids
            match authors with
            | a1 :: a2 :: a3 :: _ =>
                let ud := match existing_user with
                  | some u => (u, db)
                  | none => create_user db student_id full_name (some email)
                let user := ud.1
                let db1 := ud.2
                let db2 := add_assigned_classes db1 tp.tp_id user.id a1 a2 a3
                let db3 := add_file_record db2 user.id env.new_zip_id "dataset_zip"
                  ("students/" ++ student_id ++ "_" ++ sanitize_name full_name ++
                    "/data.zip")
                  (some "data.zip") (some "data.zip") none (some tp.tp_id)
                let db4 := add_hidden_test_ids db3 tp.tp_id user.id hidden_test_data
                let db5 := add_activity_log db4 (some user.id) "registration"
                  ("Student " ++ student_id ++ " registered with authors: " ++
                    String.intercalate ", " authors)
                .ok ({ student_id := student_id, assigned := authors
                       drive_zip_id := some env.new_zip_id
                       package_meta := student_meta }, db5)
            | _ => .error .indexError

/-- `RegistrationService.register_student` (lines 98–245): user lookup, time
window, dev fast path, email-conflict check, idempotency short-circuit, and
otherwise allocation via `register_allocate`. -/
def register_student (env : RegEnv) (ds : DataServiceState) (now : Int) (db : Db)
    (student_id full_name email : String) (tp_id : Int) :
    Except RegError (RegResult × Db) :=
  let existing_user := get_user_by_student_id db student_id
  match validate_tp_timing db now tp_id with
  | .error e => .error e
  | .ok tp =>
      if env.disable_drive_in_dev then
        let ud := match existing_user with
          | some u => (u, db)
          | none => create_user db student_id full_name (some email)
        let db1 := add_activity_log ud.2 (some ud.1.id) "registration_dev"
          "Registration completed in dev mode without Drive integration."
        .ok ({ student_id := ud.1.student_id, assigned := [], drive_zip_id := none
               package_meta := [] }, db1)
      else
        match existing_user with
        | some eu =>
            if email_conflict eu.email email then .error .emailMismatch
            else
              match get_assigned_classes db tp.tp_id eu.id,
                    get_dataset_file_for_user_tp db eu.id tp.tp_id with
              | some assigned, some dataset_file =>
                  .ok ({ student_id := eu.student_id
                         assigned := [assigned.class_1, assigned.class_2,
                           assigned.class_3]
                         drive_zip_id := some dataset_file.drive_file_id
                         package_meta := [] }, db)
              | _, _ =>
                  register_allocate env ds db (some eu) student_id full_name email tp
        | none => register_allocate env ds db none student_id full_name email tp

theorem find_append_of_none {α : Type} (p : α → Bool) (l₁ l₂ : List α)
    (h : ∀ x ∈ l₁, ¬ p x = true) : (l₁ ++ l₂).find? p = l₂.find? p := by
  induction l₁ with
  | nil => rfl
  | cons a t ih =>
      rw [List.cons_append, List.find?_cons_of_neg _ (h a (by simp))]
      exact ih (fun x hx => h x (by simp [hx]))

theorem validate_tp_timing_congr (db db' : Db) (h : db'.tps = db.tps)
    (now tp_id : Int) :
    validate_tp_timing db' now tp_id = validate_tp_timing db now tp_id := by
  unfold validate_tp_timing get_tp_by_id
  rw [h]

/-- The fresh registration run (no prior user): the explicit success equation of
`register_student`, with the created user and all five writes spelled out. -/
theorem register_fresh_run (env : RegEnv) (ds : DataServiceState) (now : Int)
    (db : Db) (student_id full_name email : String) (tp_id : Int) (tp : Tps)
    (a1 a2 a3 : String) (rest : List String) (items : List HiddenItem)
    (henv : env.disable_drive_in_dev = false)
    (huser : get_user_by_student_id db student_id = none)
    (htp : validate_tp_timing db now tp_id = .ok tp)
    (hsample : sample_authors env.pickAuthors ds 4 = .ok (a1 :: a2 :: a3 :: rest))
    (hne : (get_files_for_authors ds (a1 :: a2 :: a3 :: rest)).isEmpty = false)
    (hsel : select_hidden_test_ids env.pickIdx
      (get_files_for_authors ds (a1 :: a2 :: a3 :: rest)) 1 = .ok items) :
    register_student env ds now db student_id full_name email tp_id =
      .ok ({ student_id := student_id, assigned := a1 :: a2 :: a3 :: rest
             drive_zip_id := some env.new_zip_id
             package_meta := build_student_meta
               (get_files_for_authors ds (a1 :: a2 :: a3 :: rest))
               (items.map (fun h => h.text_id)) },
        add_activity_log
          (add_hidden_test_ids
            (add_file_record
              (add_assigned_classes (create_user db student_id full_name (some email)).2
                tp.tp_id (create_user db student_id full_name (some email)).1.id
                a1 a2 a3)
              (create_user db student_id full_name (some email)).1.id env.new_zip_id
              "dataset_zip"
              ("students/" ++ student_id ++ "_" ++ sanitize_name full_name ++
                "/data.zip")
              (some "data.zip") (some "data.zip") none (some tp.tp_id))
            tp.tp_id (create_user db student_id full_name (some email)).1.id items)
          (some (create_user db student_id full_name (some email)).1.id) "registration"
          ("Student " ++ student_id ++ " registered with authors: " ++
            String.intercalate ", " (a1 :: a2 :: a3 :: rest))) := by
  unfold register_student
  dsimp only
  rw [huser, htp]
  dsimp only
  rw [henv]
  rw [if_neg (show ¬ false = true by simp)]
  unfold register_allocate
  rw [hsample]
  dsimp only
  rw [hne]
  rw [if_neg (show ¬ false = true by simp)]
  rw [hsel]

/-- Claim C1 amended: for a fresh, in-window registration the first call assigns
4 authors; an immediate identical second call short-circuits, returning the same
`drive_zip_id` but only the FIRST THREE of the four originally assigned authors
(line 233 persists only three classes), writes nothing, and exactly one
AssignedClasses row exists for the pair. -/
theorem register_idempotent_amended :
    ∀ (env : RegEnv) (ds : DataServiceState) (now : Int) (db : Db)
      (student_id full_name email : String) (tp_id : Int) (tp : Tps),
      env.disable_drive_in_dev = false →
      ValidAuthorPick env.pickAuthors → ValidIdxPick env.pickIdx →
      get_user_by_student_id db student_id = none →
      validate_tp_timing db now tp_id = .ok tp →
      4 ≤ ds.authors.length →
      (get_files_for_authors ds (env.pickAuthors ds.authors 4)).isEmpty = false →
      (∀ r ∈ ds.metadata_list, (parse_int r.AuthorID).isSome = true) →
      (∀ a ∈ db.assigned, a.user_id ≠ db.next_user_id) →
      (∀ f ∈ db.files, f.user_id ≠ db.next_user_id) →
      ∃ res1 db1,
        register_student env ds now db student_id full_name email tp_id =
          .ok (res1, db1) ∧
        res1.assigned.length = 4 ∧
        res1.drive_zip_id = some env.new_zip_id ∧
        register_student env ds now db1 student_id full_name email tp_id =
          .ok ({ student_id := student_id, assigned := res1.assigned.take 3
                 drive_zip_id := res1.drive_zip_id, package_meta := [] }, db1) ∧
        (db1.assigned.filter (fun a =>
          a.tp_id == tp.tp_id && a.user_id == db.next_user_id)).length = 1 := by
  intro env ds now db student_id full_name email tp_id tp
  intro henv hva hvi huser htp h4 hne hparse hfreshA hfreshF
  -- the sample succeeds and has the 3-cons shape
  have hsample : sample_authors env.pickAuthors ds 4 =
      .ok (env.pickAuthors ds.authors 4) := by
    unfold sample_authors
    rw [if_pos h4]
  obtain ⟨hplen, hpmem, _⟩ := hva ds.authors 4 h4
  obtain ⟨a1, a2, a3, rest, hshape⟩ :
      ∃ a1 a2 a3 rest, env.pickAuthors ds.authors 4 = a1 :: a2 :: a3 :: rest := by
    rcases hl : env.pickAuthors ds.authors 4 with _ | ⟨a1, l⟩
    · rw [hl] at hplen; simp at hplen
    rcases l with _ | ⟨a2, l⟩
    · rw [hl] at hplen; simp at hplen
    rcases l with _ | ⟨a3, l⟩
    · rw [hl] at hplen; simp at hplen
    exact ⟨a1, a2, a3, l, rfl⟩
  rw [hshape] at hsample hne
  -- the hidden-test selection succeeds
  obtain ⟨items, hsel, -, -, -, -⟩ :=
    select_hidden_test_ids_spec env.pickIdx
      (get_files_for_authors ds (a1 :: a2 :: a3 :: rest)) hvi
      (fun r hr => hparse r (List.mem_of_mem_filter hr))
  have hrun := register_fresh_run env ds now db student_id full_name email tp_id tp
    a1 a2 a3 rest items henv huser htp hsample hne hsel
  -- names for the created user and final state
  set user : User := (create_user db student_id full_name (some email)).1 with huserdef
  set db1 := add_activity_log
      (add_hidden_test_ids
        (add_file_record
          (add_assigned_classes (create_user db student_id full_name (some email)).2
            tp.tp_id user.id a1 a2 a3)
          user.id env.new_zip_id "dataset_zip"
          ("students/" ++ student_id ++ "_" ++ sanitize_name full_name ++ "/data.zip")
          (some "data.zip") (some "data.zip") none (some tp.tp_id))
        tp.tp_id user.id items)
      (some user.id) "registration"
      ("Student " ++ student_id ++ " registered with authors: " ++
        String.intercalate ", " (a1 :: a2 :: a3 :: rest)) with hdb1
  refine ⟨_, db1, hrun, by dsimp only; rw [← hshape]; exact hplen, rfl, ?_, ?_⟩
  · -- the second call short-circuits on db1
    have htps : db1.tps = db.tps := rfl
    have husers : db1.users = db.users ++ [user] := rfl
    have hassigned : db1.assigned = db.assigned ++
        [{ tp_id := tp.tp_id, user_id := user.id
           class_1 := a1, class_2 := a2, class_3 := a3 }] := rfl
    have hfiles : db1.files = db.files ++
        [{ user_id := user.id, tp_id := some tp.tp_id
           drive_file_id := env.new_zip_id, file_type := "dataset_zip"
           path := "students/" ++ student_id ++ "_" ++ sanitize_name full_name ++
             "/data.zip"
           original_filename := some "data.zip", stored_filename := some "data.zip"
           size_bytes := none }] := rfl
    have htp1 : validate_tp_timing db1 now tp_id = .ok tp := by
      rw [validate_tp_timing_congr db db1 htps, htp]
    have hu1 : get_user_by_student_id db1 student_id = some user := by
      unfold get_user_by_student_id
      rw [husers, find_append_of_none _ _ _ (List.find?_eq_none.mp huser)]
      simp [huserdef, create_user]
    have hid : user.id = db.next_user_id := rfl
    have ha1 : get_assigned_classes db1 tp.tp_id user.id =
        some { tp_id := tp.tp_id, user_id := user.id
               class_1 := a1, class_2 := a2, class_3 := a3 } := by
      unfold get_assigned_classes
      rw [hassigned, find_append_of_none _ _ _ (fun a ha => by
        have := hfreshA a ha
        simp only [Bool.and_eq_true, beq_iff_eq, hid]
        intro hc
        exact this hc.2)]
      simp
    have hf1 : get_dataset_file_for_user_tp db1 user.id tp.tp_id =
        some { user_id := user.id, tp_id := some tp.tp_id
               drive_file_id := env.new_zip_id, file_type := "dataset_zip"
               path := "students/" ++ student_id ++ "_" ++ sanitize_name full_name ++
                 "/data.zip"
               original_filename := some "data.zip", stored_filename := some "data.zip"
               size_bytes := none } := by
      unfold get_dataset_file_for_user_tp
      rw [hfiles, find_append_of_none _ _ _ (fun f hf => by
        have := hfreshF f hf
        simp only [Bool.and_eq_true, beq_iff_eq, hid]
        intro hc
        exact this hc.1.1)]
      simp
    unfold register_student
    dsimp only
    rw [hu1, htp1]
    dsimp only
    rw [henv]
    rw [if_neg (show ¬ false = true by simp)]
    rw [show email_conflict user.email email = false by
      simp [huserdef, create_user, email_conflict]]
    rw [if_neg (show ¬ false = true by simp)]
    rw [ha1, hf1]
    rfl
  · -- exactly one AssignedClasses row for the pair
    have hassigned : db1.assigned = db.assigned ++
        [{ tp_id := tp.tp_id, user_id := user.id
           class_1 := a1, class_2 := a2, class_3 := a3 }] := rfl
    rw [hassigned, List.filter_append]
    have hnil : db.assigned.filter (fun a =>
        a.tp_id == tp.tp_id && a.user_id == db.next_user_id) = [] := by
      rw [List.filter_eq_nil]
      intro a ha
      have := hfreshA a ha
      simp only [Bool.and_eq_true, beq_iff_eq]
      intro hc
      exact this hc.2
    rw [hnil]
    have hid : user.id = db.next_user_id := rfl
    simp [hid]

/-- A concrete registration environment (deterministic samplers, fixed zip id). -/
def envC1 : RegEnv :=
  { disable_drive_in_dev := false, pickAuthors := takeAuthorPick
    pickIdx := takeIdxPick, new_zip_id := "zip1" }

/-- A concrete corpus with four authors, one file each. -/
def dsC1 : DataServiceState :=
  { metadata_list :=
      [ { Author := "A", AuthorID := "1", FileName := "a.txt", FilePath := "A/a.txt" },
        { Author := "B", AuthorID := "2", FileName := "b.txt", FilePath := "B/b.txt" },
        { Author := "C", AuthorID := "3", FileName := "c.txt", FilePath := "C/c.txt" },
        { Author := "D", AuthorID := "4", FileName := "d.txt", FilePath := "D/d.txt" } ]
    authors := ["A", "B", "C", "D"], author_ids := [1, 2, 3, 4] }

/-- The outcome of a concrete first registration. -/
def regOut1 : Except RegError (RegResult × Db) :=
  register_student envC1 dsC1 120 dbScenario "s1" "John Doe" "j@x" 1

/-- Its post-state (total projection). -/
def regDb1 : Db :=
  match regOut1 with
  | .ok (_, d) => d
  | .error _ => dbScenario

/-- Its result dict (total projection). -/
def regRes1 : RegResult :=
  match regOut1 with
  | .ok (r, _) => r
  | .error _ =>
      { student_id := "", assigned := [], drive_zip_id := none, package_meta := [] }

/-- The outcome of the identical immediate second call. -/
def regOut2 : Except RegError (RegResult × Db) :=
  register_student envC1 dsC1 120 regDb1 "s1" "John Doe" "j@x" 1

/-- Counterexample to claim C1: the second identical call does NOT return the
identical `assigned` list — the first call returns the four sampled authors, the
short-circuit returns only the three persisted classes (the package ref is the
same). -/
theorem register_second_call_differs :
    regOut1 = .ok (regRes1, regDb1) ∧
    regRes1.assigned = ["A", "B", "C", "D"] ∧
    regOut2 = .ok ({ student_id := "s1", assigned := ["A", "B", "C"]
                     drive_zip_id := some "zip1", package_meta := [] }, regDb1) ∧
    ¬ ((["A", "B", "C"] : List String) = ["A", "B", "C", "D"]) := by
  decide

/-- Witness for the amended C1 on the concrete instance. -/
theorem register_idempotent_amended_witness :
    ∃ res1 db1,
      register_student envC1 dsC1 120 dbScenario "s1" "John Doe" "j@x" 1 =
        .ok (res1, db1) ∧
      res1.assigned.length = 4 ∧
      res1.drive_zip_id = some envC1.new_zip_id ∧
      register_student envC1 dsC1 120 db1 "s1" "John Doe" "j@x" 1 =
        .ok ({ student_id := "s1", assigned := res1.assigned.take 3
               drive_zip_id := res1.drive_zip_id, package_meta := [] }, db1) ∧
      (db1.assigned.filter (fun a =>
        a.tp_id == tpScenario.tp_id &&
          a.user_id == dbScenario.next_user_id)).length = 1 :=
  register_idempotent_amended envC1 dsC1 120 dbScenario "s1" "John Doe" "j@x" 1
    tpScenario rfl takeAuthorPick_valid takeIdxPick_valid rfl (by decide) (by decide)
    (by decide) (by decide) (by decide) (by decide)

/-- A registered user with email `a@x` on file. -/
def userC3 : User :=
  { id := 0, student_id := "s3", full_name := "Ann C", email := some "a@x"
    has_submitted := false }

/-- Their AssignedClasses row for TP 1. -/
def assignedC3 : AssignedClass :=
  { tp_id := 1, user_id := 0, class_1 := "A", class_2 := "B", class_3 := "C" }

/-- Their dataset package record for TP 1. -/
def fileC3 : FileRec :=
  { user_id := 0, tp_id := some 1, drive_file_id := "zipC3"
    file_type := "dataset_zip", path := "p", original_filename := some "data.zip"
    stored_filename := some "data.zip", size_bytes := none }

/-- A store where `userC3` is fully allocated for TP 1. -/
def dbC3 : Db :=
  { tps := [tpScenario], users := [userC3], assigned := [assignedC3]
    files := [fileC3], hidden := [], logs := [], next_user_id := 1 }

/-- Counterexample to claim C3: a fully allocated user registering again with a
different email is NOT short-circuited to the existing allocation — the email
conflict check runs first and fails the call. -/
theorem register_email_check_precedes :
    register_student envC1 dsC1 120 dbC3 "s3" "Ann C" "b@x" 1 =
      .error .emailMismatch := by
  decide

/-- Claim C3 amended: the email conflict check precedes the idempotency
short-circuit — a differing non-empty stored email fails with EmailMismatch even
when the allocation is complete; the existing allocation is returned verbatim
only when the stored email does not conflict. -/
theorem register_email_then_shortcircuit :
    ∀ (env : RegEnv) (ds : DataServiceState) (now : Int) (db : Db)
      (student_id full_name email : String) (tp_id : Int) (tp : Tps) (eu : User),
      env.disable_drive_in_dev = false →
      get_user_by_student_id db student_id = some eu →
      validate_tp_timing db now tp_id = .ok tp →
      (email_conflict eu.email email = true →
        register_student env ds now db student_id full_name email tp_id =
          .error .emailMismatch) ∧
      (∀ (a : AssignedClass) (f : FileRec),
        email_conflict eu.email email = false →
        get_assigned_classes db tp.tp_id eu.id = some a →
        get_dataset_file_for_user_tp db eu.id tp.tp_id = some f →
        register_student env ds now db student_id full_name email tp_id =
          .ok ({ student_id := eu.student_id
                 assigned := [a.class_1, a.class_2, a.class_3]
                 drive_zip_id := some f.drive_file_id, package_meta := [] }, db)) := by
  intro env ds now db student_id full_name email tp_id tp eu henv huser htp
  constructor
  · intro hconf
    unfold register_student
    dsimp only
    rw [huser, htp]
    dsimp only
    rw [henv]
    rw [if_neg (show ¬ false = true by simp)]
    rw [hconf]
    rw [if_pos rfl]
  · intro a f hconf ha hf
    unfold register_student
    dsimp only
    rw [huser, htp]
    dsimp only
    rw [henv]
    rw [if_neg (show ¬ false = true by simp)]
    rw [hconf]
    rw [if_neg (show ¬ false = true by simp)]
    rw [ha, hf]

/-- Witness for the amended C3: both branches on the concrete store. -/
theorem register_email_then_shortcircuit_witness :
    register_student envC1 dsC1 120 dbC3 "s3" "Ann C" "b@x" 1 =
      .error .emailMismatch ∧
    register_student envC1 dsC1 120 dbC3 "s3" "Ann C" "a@x" 1 =
      .ok ({ student_id := userC3.student_id
             assigned := [assignedC3.class_1, assignedC3.class_2, assignedC3.class_3]
             drive_zip_id := some fileC3.drive_file_id, package_meta := [] },
        dbC3) :=
  ⟨(register_email_then_shortcircuit envC1 dsC1 120 dbC3 "s3" "Ann C" "b@x" 1
      tpScenario userC3 rfl rfl (by decide)).1 (by decide),
    (register_email_then_shortcircuit envC1 dsC1 120 dbC3 "s3" "Ann C" "a@x" 1
      tpScenario userC3 rfl rfl (by decide)).2 assignedC3 fileC3 (by decide) rfl rfl⟩

/-- The empty corpus. -/
def dsEmpty : DataServiceState :=
  { metadata_list := [], authors := [], author_ids := [] }

/-- Counterexample to claim C6: with an empty author universe the registration
fails with the propagated `ValueError` of `random.sample` (a generic internal
error), not with the dedicated insufficient-corpus error of line 153. -/
theorem register_empty_corpus_value_error :
    register_student envC1 dsEmpty 120 dbScenario "s6" "Bo B" "b@x" 1 =
      .error .valueError ∧
    RegError.valueError ≠ RegError.noFilesForSampledAuthors := by
  decide

theorem shape_of_length_four {l : List String} (h : l.length = 4) :
    ∃ a1 a2 a3 rest, l = a1 :: a2 :: a3 :: rest := by
  rcases l with _ | ⟨a1, l⟩
  · simp at h
  rcases l with _ | ⟨a2, l⟩
  · simp at h
  rcases l with _ | ⟨a3, l⟩
  · simp at h
  exact ⟨a1, a2, a3, l, rfl⟩

/-- Claim C6 amended: with fewer than 4 authors, a fresh in-window registration
fails with the uncaught sampling `ValueError` (surfacing as a generic error, not
the dedicated insufficient-corpus error, which is raised only for an empty file
slice); when a fresh registration succeeds, it assigned exactly 4 authors drawn
from the author universe, distinct whenever the universe is duplicate-free. -/
theorem register_sampling_spec :
    (∀ (env : RegEnv) (ds : DataServiceState) (now : Int) (db : Db)
        (student_id full_name email : String) (tp_id : Int) (tp : Tps),
      env.disable_drive_in_dev = false →
      get_user_by_student_id db student_id = none →
      validate_tp_timing db now tp_id = .ok tp →
      ds.authors.length < 4 →
      register_student env ds now db student_id full_name email tp_id =
        .error .valueError) ∧
    (∀ (env : RegEnv) (ds : DataServiceState) (now : Int) (db : Db)
        (student_id full_name email : String) (tp_id : Int)
        (res : RegResult) (db' : Db),
      ValidAuthorPick env.pickAuthors →
      env.disable_drive_in_dev = false →
      get_user_by_student_id db student_id = none →
      register_student env ds now db student_id full_name email tp_id =
        .ok (res, db') →
      res.assigned.length = 4 ∧ (∀ a ∈ res.assigned, a ∈ ds.authors) ∧
        (ds.authors.Nodup → res.assigned.Nodup)) := by
  constructor
  · intro env ds now db student_id full_name email tp_id tp henv huser htp hlt
    unfold register_student
    dsimp only
    rw [huser, htp]
    dsimp only
    rw [henv]
    rw [if_neg (show ¬ false = true by simp)]
    unfold register_allocate
    have hs : sample_authors env.pickAuthors ds 4 = .error .valueError := by
      unfold sample_authors
      rw [if_neg (by omega)]
    rw [hs]
  · intro env ds now db student_id full_name email tp_id res db' hva henv huser h
    unfold register_student at h
    dsimp only at h
    rw [huser] at h
    cases hval : validate_tp_timing db now tp_id with
    | error e => rw [hval] at h; exact Except.noConfusion h
    | ok tp =>
        rw [hval] at h
        dsimp only at h
        rw [henv] at h
        rw [if_neg (show ¬ false = true by simp)] at h
        unfold register_allocate at h
        by_cases h4 : 4 ≤ ds.authors.length
        · have hs : sample_authors env.pickAuthors ds 4 =
              .ok (env.pickAuthors ds.authors 4) := by
            unfold sample_authors
            rw [if_pos h4]
          rw [hs] at h
          dsimp only at h
          obtain ⟨hplen, hpmem, hpnodup⟩ := hva ds.authors 4 h4
          obtain ⟨a1, a2, a3, rest, hl⟩ := shape_of_length_four hplen
          rw [hl] at h
          by_cases hempty :
              (get_files_for_authors ds (a1 :: a2 :: a3 :: rest)).isEmpty = true
          · rw [if_pos hempty] at h
            exact Except.noConfusion h
          · have hempty' :
                (get_files_for_authors ds (a1 :: a2 :: a3 :: rest)).isEmpty = false := by
              revert hempty
              cases (get_files_for_authors ds (a1 :: a2 :: a3 :: rest)).isEmpty <;> simp
            rw [hempty'] at h
            rw [if_neg (show ¬ false = true by simp)] at h
            cases hsel : select_hidden_test_ids env.pickIdx
                (get_files_for_authors ds (a1 :: a2 :: a3 :: rest)) 1 with
            | error e => rw [hsel] at h; exact Except.noConfusion h
            | ok items =>
                rw [hsel] at h
                dsimp only at h
                injection h with h1
                injection h1 with hres hdb
                subst hres
                refine ⟨?_, ?_, ?_⟩
                · dsimp only
                  rw [← hl]
                  exact hplen
                · dsimp only
                  rw [← hl]
                  exact hpmem
                · intro hnd
                  dsimp only
                  rw [← hl]
                  exact hpnodup hnd
        · have hs : sample_authors env.pickAuthors ds 4 = .error .valueError := by
            unfold sample_authors
            rw [if_neg h4]
          rw [hs] at h
          exact Except.noConfusion h

/-- Witness for the amended C6: the failing empty-corpus call and the successful
concrete allocation. -/
theorem register_sampling_spec_witness :
    register_student envC1 dsEmpty 120 dbScenario "s6" "Bo B" "b@x" 1 =
      .error .valueError ∧
    (regRes1.assigned.length = 4 ∧ (∀ a ∈ regRes1.assigned, a ∈ dsC1.authors) ∧
      (dsC1.authors.Nodup → regRes1.assigned.Nodup)) :=
  ⟨register_sampling_spec.1 envC1 dsEmpty 120 dbScenario "s6" "Bo B" "b@x" 1
      tpScenario rfl rfl (by decide) (by decide),
    register_sampling_spec.2 envC1 dsC1 120 dbScenario "s1" "John Doe" "j@x" 1
      regRes1 regDb1 takeAuthorPick_valid rfl rfl (by decide)⟩

end APP
